import Mathlib

/-!
Verification of the EPUB indexing & metadata cache engine
(`src/lib/Epub/Epub.cpp`, class `Epub`) against its specification.

The embedding models:
* the cache-directory filesystem as an association list from paths to byte
  lists (bytes are `Nat`, values 0..255 as written by the code);
* the ZIP archive accessor, the structural parsers, the raster converter and
  the `BookMetadataCache` as oracles/data supplied in environment structures
  (those collaborators are external to `Epub.cpp`);
* `float`/`size_t` arithmetic over `ℚ`/`Nat`, with `size_t` subtraction made
  explicit as arithmetic modulo 2^64.
-/

namespace Epub

/-! ## Filesystem model

The storage primitives used by `Epub.cpp` (`Storage.exists`, `Storage.open`,
`Storage.openFileForWrite` (truncating), `Storage.remove`, `file.size`,
`file.read`) are modelled over an association list of full file contents.
Opens are modelled as succeeding exactly when the file exists (for reads);
write-opens always succeed and truncate. -/

/-- Filesystem: association list from path to file bytes. -/
abbrev Fs := List (String × List Nat)

/-- Look up the contents of a file. `none` models a missing file. -/
def fsLookup (fs : Fs) (p : String) : Option (List Nat) :=
  (fs.find? (fun e => decide (e.1 = p))).map (·.2)

/-- `Storage.exists`. -/
def fsExists (fs : Fs) (p : String) : Bool :=
  (fsLookup fs p).isSome

/-- `Storage.remove`. -/
def fsRemove (fs : Fs) (p : String) : Fs :=
  fs.filter (fun e => decide (¬ e.1 = p))

/-- Open-for-write (truncate) followed by writing `d`: replaces the file. -/
def fsInsert (fs : Fs) (p : String) (d : List Nat) : Fs :=
  (p, d) :: fsRemove fs p

/-! ## `Epub::isValidThumbnailBmp` (Epub.cpp lines 992-1020)

Translated step by step: existence check, open (succeeds iff the file
exists in the model), empty-file check, 2-byte header read (a short read
fails), and the `'B','M'` magic comparison. -/

/-- `Epub::isValidThumbnailBmp(bmpPath)`. -/
def isValidThumbnailBmp (fs : Fs) (bmpPath : String) : Bool :=
  match fsLookup fs bmpPath with
  | none => false
  | some d =>
    if d.length = 0 then false
    else
      -- read up to 2 bytes from the start of the file
      let hdr := d.take 2
      if hdr.length ≠ 2 then false
      else decide (hdr.getD 0 0 = 66) && decide (hdr.getD 1 0 = 77)

/-- Spec-side validity oracle, following the spec's words: the file exists,
has non-zero size, and its first two bytes are the bitmap magic `BM`
(ASCII 66, 77). Stated as a second definition to compare with the
source-translated `isValidThumbnailBmp`. -/
def validBmpSpec (fs : Fs) (bmpPath : String) : Bool :=
  match fsLookup fs bmpPath with
  | none => false
  | some d => decide (d.length ≠ 0) && decide (d.take 2 = [66, 77])

/-! ## Cover candidate list (`Epub::getCoverCandidates`, lines 830-841)

Source: two nested loops, extensions outer, directories inner. -/

/-- `Epub::getCoverCandidates()`. -/
def getCoverCandidates : List String :=
  let coverDirectories := [".", "images", "Images", "OEBPS", "OEBPS/images", "OEBPS/Images"]
  let coverExtensions := [".jpg", ".jpeg"]
  (coverExtensions.map (fun ext =>
    coverDirectories.map (fun dir =>
      if dir = "." then "cover" ++ ext else dir ++ "/cover" ++ ext))).flatten

/-- The fallback probing loop duplicated verbatim in `generateCoverBmp`
(lines 486-500) and `generateThumbBmp` (lines 580-595): walk the candidate
list, attempt an existence read with `readItemContentsToBytes`, stop at the
first hit, clear the candidate otherwise.  Returns the resolved href (empty
string when none exists) together with the number of existence reads
performed. -/
def probeLoop (archiveHas : String → Bool) : List String → String × Nat
  | [] => ("", 0)
  | c :: rest =>
    if archiveHas c then (c, 1)
    else
      let r := probeLoop archiveHas rest
      (r.1, r.2 + 1)

/-! ## Lower-casing and the JPG extension check (lines 506-510, 599-603)

The source lower-cases the href with `std::transform(..., ::tolower)` and
compares the last 4 / 5 characters with `.jpg` / `.jpeg` via `substr`.
For hrefs of length ≥ 5 `substr(len-4)`/`substr(len-5)` equality is exactly
a suffix test, which is how it is modelled here. -/

/-- `::tolower` on an ASCII character. -/
def lowerChar (c : Char) : Char :=
  if 'A' ≤ c ∧ c ≤ 'Z' then Char.ofNat (c.toNat + 32) else c

/-- `std::transform(s.begin(), s.end(), s.begin(), ::tolower)`. -/
def toLowerAscii (s : String) : String :=
  ⟨s.data.map lowerChar⟩

/-- Suffix test on the character list. -/
def strEndsWith (s suffix : String) : Bool :=
  suffix.data.isSuffixOf s.data

/-- The `isJpg` test of lines 509-510 / 602-603 applied to a href. -/
def isJpgHref (href : String) : Bool :=
  let lowerHref := toLowerAscii href
  strEndsWith lowerHref ".jpg" || strEndsWith lowerHref ".jpeg"

/-! ## Marker bitmaps
(`Epub::generateInvalidFormatThumbBmp` lines 658-741 and
`Epub::generateInvalidFormatCoverBmp` lines 743-828; the two functions write
the same byte layout and differ only in dimensions and line thickness). -/

/-- 4-byte little-endian encoding of an unsigned 32-bit value. -/
def le32 (n : Nat) : List Nat :=
  [n % 256, n / 256 % 256, n / 65536 % 256, n / 16777216 % 256]

/-- 4-byte little-endian encoding of a signed 32-bit value (two's complement). -/
def le32i (n : Int) : List Nat :=
  le32 (n.emod 4294967296).toNat

/-- 2-byte little-endian encoding of an unsigned 16-bit value. -/
def le16 (n : Nat) : List Nat :=
  [n % 256, n / 256 % 256]

/-- The diagonal-cross predicate of lines 720-725 / 810-813: pixel `x` of a
row with scaled position `scaledY` is drawn (black) when it lies within
`thickness` of either diagonal. -/
def drawPixel (width thickness scaledY x : Nat) : Bool :=
  decide (((x : Int) - scaledY).natAbs ≤ thickness) ||
    decide (((x : Int) - ((width : Int) - 1 - scaledY)).natAbs ≤ thickness)

/-- One byte of a marker row: bits start at 1 (white) and are cleared
(MSB first) for drawn pixels with `x < width`; padding bits stay 1. -/
def markerRowByte (width thickness scaledY b : Nat) : Nat :=
  (List.range 8).foldl (fun acc k =>
    let x := 8 * b + k
    if decide (x < width) && drawPixel width thickness scaledY x then acc
    else acc + 2 ^ (7 - k)) 0

/-- One row of marker pixel data, `rowBytes` bytes padded to a 4-byte
boundary (lines 713-736 / 804-823). -/
def markerRow (width thickness height y : Nat) : List Nat :=
  let rowBytes := ((width + 31) / 32) * 4
  let scaledY := (y * width) / height
  (List.range rowBytes).map (markerRowByte width thickness scaledY)

/-- The whole marker BMP: `BM` magic, file header, BITMAPINFOHEADER,
2-colour palette, then the top-down rows (negative height field). -/
def markerBytes (width height thickness : Nat) : List Nat :=
  let rowBytes := ((width + 31) / 32) * 4
  let imageSize := rowBytes * height
  let fileSize := 14 + 40 + 8 + imageSize
  let dataOffset := 14 + 40 + 8
  66 :: 77 ::
    (le32 fileSize ++ le32 0 ++ le32 dataOffset ++
      le32 40 ++ le32i (width : Int) ++ le32i (-(height : Int)) ++
      le16 1 ++ le16 1 ++ le32 0 ++ le32 imageSize ++
      le32i 2835 ++ le32i 2835 ++ le32 2 ++ le32 2 ++
      [0, 0, 0, 0] ++ [255, 255, 255, 0] ++
      ((List.range height).map (markerRow width thickness height)).flatten)

/-- Modelled from the spec: `HalDisplay::DISPLAY_WIDTH` — the display driver
is outside this repository's sources; the source comment at Epub.cpp:750
states the native panel orientation is 800x480. -/
def DISPLAY_WIDTH : Nat := 800

/-- Modelled from the spec: `HalDisplay::DISPLAY_HEIGHT`, see `DISPLAY_WIDTH`. -/
def DISPLAY_HEIGHT : Nat := 480

/-! ## Derived asset generation
(`Epub::generateCoverBmp` lines 463-552, `Epub::generateThumbBmp`
lines 557-656). -/

/-- Environment of external collaborators for the asset functions:
the book's cache path and loaded metadata, the ZIP archive accessor and the
JPEG converter (both external libraries). -/
structure AssetEnv where
  /-- `Epub::cachePath`. -/
  cachePath : String
  /-- `bookMetadataCache && bookMetadataCache->isLoaded()`. -/
  cacheLoaded : Bool
  /-- `bookMetadataCache->coreMetadata.coverItemHref`. -/
  coverItemHref : String
  /-- Whether `readItemContentsToBytes(href)` succeeds (archive entry exists). -/
  archiveHas : String → Bool
  /-- The bytes `readItemContentsToStream(href, ...)` produces. -/
  archiveBytes : String → List Nat
  /-- `JpegToBmpConverter::jpegFileToBmpStream(src, dst, cropped)`:
  `none` models converter failure, `some out` the bytes written on success. -/
  convertCover : Bool → List Nat → Option (List Nat)
  /-- `JpegToBmpConverter::jpegFileTo1BitBmpStreamWithSize(src, dst, w, h)`,
  keyed by the requested thumbnail height. -/
  convertThumb : Nat → List Nat → Option (List Nat)

/-- `Epub::getCoverBmpPath(cropped)` (lines 458-461). -/
def getCoverBmpPath (cachePath : String) (cropped : Bool) : String :=
  cachePath ++ "/" ++ ("cover" ++ (if cropped then "_crop" else "")) ++ ".bmp"

/-- `Epub::getThumbBmpPath(height)` (line 555). -/
def getThumbBmpPath (cachePath : String) (height : Nat) : String :=
  cachePath ++ "/thumb_" ++ toString height ++ ".bmp"

/-- `Epub::generateInvalidFormatCoverBmp(cropped)`: writes the marker BMP at
the cover path (logical portrait dimensions min/max of the display, line
thickness 6) and returns true. -/
def generateInvalidFormatCoverBmp (env : AssetEnv) (fs : Fs) (cropped : Bool) : Bool × Fs :=
  let width := min DISPLAY_WIDTH DISPLAY_HEIGHT
  let height := max DISPLAY_WIDTH DISPLAY_HEIGHT
  (true, fsInsert fs (getCoverBmpPath env.cachePath cropped) (markerBytes width height 6))

/-- `Epub::generateInvalidFormatThumbBmp(height)`: marker BMP at the
thumbnail path, width `height * 0.6` (double arithmetic in the source,
modelled as `height * 6 / 10`), line thickness 2. -/
def generateInvalidFormatThumbBmp (env : AssetEnv) (fs : Fs) (height : Nat) : Bool × Fs :=
  let width := height * 6 / 10
  (true, fsInsert fs (getThumbBmpPath env.cachePath height) (markerBytes width height 2))

/-- Observable outcome of one asset-generation call: the returned boolean,
the filesystem afterwards, how many times the JPEG converter ran, how many
candidate existence reads the fallback probing performed, and the value the
local `effectiveCoverImageHref` held when generation proceeded (empty on the
early-return and failure paths). -/
structure GenResult where
  ok : Bool
  fs : Fs
  converterCalls : Nat
  probes : Nat
  resolvedHref : String

/-- Body of `Epub::generateCoverBmp` after the existing-file check
(lines 479-551). -/
def generateCoverBmpCore (env : AssetEnv) (fs : Fs) (cropped : Bool) : GenResult :=
  if env.cacheLoaded = false then
    { ok := false, fs := fs, converterCalls := 0, probes := 0, resolvedHref := "" }
  else
    let coverImageHref := env.coverItemHref
    let probed :=
      if coverImageHref = "" then probeLoop env.archiveHas getCoverCandidates
      else (coverImageHref, 0)
    let effectiveCoverImageHref := probed.1
    if effectiveCoverImageHref = "" then
      -- the branch condition makes `effectiveCoverImageHref` the empty string here
      { ok := false, fs := fs, converterCalls := 0, probes := probed.2,
        resolvedHref := effectiveCoverImageHref }
    else if isJpgHref effectiveCoverImageHref then
      -- stream the cover image to the scratch file, convert, remove scratch
      let coverJpgTempPath := env.cachePath ++ "/.cover.jpg"
      let fs1 := fsInsert fs coverJpgTempPath (env.archiveBytes effectiveCoverImageHref)
      -- opening the destination for write truncates it
      let fs2 := fsInsert fs1 (getCoverBmpPath env.cachePath cropped) []
      match env.convertCover cropped (env.archiveBytes effectiveCoverImageHref) with
      | some out =>
        let fs3 := fsRemove (fsInsert fs2 (getCoverBmpPath env.cachePath cropped) out)
          coverJpgTempPath
        { ok := true, fs := fs3, converterCalls := 1, probes := probed.2,
          resolvedHref := effectiveCoverImageHref }
      | none =>
        -- converter failed: remove scratch, fall back to the marker BMP
        let fs3 := fsRemove fs2 coverJpgTempPath
        let marker := generateInvalidFormatCoverBmp env fs3 cropped
        { ok := marker.1, fs := marker.2, converterCalls := 1, probes := probed.2,
          resolvedHref := effectiveCoverImageHref }
    else
      -- unsupported format: write the marker BMP
      let marker := generateInvalidFormatCoverBmp env fs cropped
      { ok := marker.1, fs := marker.2, converterCalls := 0, probes := probed.2,
        resolvedHref := effectiveCoverImageHref }

/-- `Epub::generateCoverBmp(cropped)` (lines 463-552): reuse an existing
valid file, remove an existing invalid one and regenerate, otherwise
generate afresh. -/
def generateCoverBmp (env : AssetEnv) (fs : Fs) (cropped : Bool) : GenResult :=
  let path := getCoverBmpPath env.cachePath cropped
  if fsExists fs path then
    if isValidThumbnailBmp fs path then
      { ok := true, fs := fs, converterCalls := 0, probes := 0, resolvedHref := "" }
    else
      generateCoverBmpCore env (fsRemove fs path) cropped
  else
    generateCoverBmpCore env fs cropped

/-- Body of `Epub::generateThumbBmp` after the existing-file check
(lines 574-655).  Unlike the cover variant, when no effective href resolves
it writes a zero-byte file at the thumbnail path before returning false
(lines 651-655). -/
def generateThumbBmpCore (env : AssetEnv) (fs : Fs) (height : Nat) : GenResult :=
  if env.cacheLoaded = false then
    { ok := false, fs := fs, converterCalls := 0, probes := 0, resolvedHref := "" }
  else
    let coverImageHref := env.coverItemHref
    let probed :=
      if coverImageHref = "" then probeLoop env.archiveHas getCoverCandidates
      else (coverImageHref, 0)
    let effectiveCoverImageHref := probed.1
    if effectiveCoverImageHref = "" then
      -- write an empty bmp file to avoid generation attempts in the future
      -- (the branch condition makes `effectiveCoverImageHref` empty here)
      { ok := false, fs := fsInsert fs (getThumbBmpPath env.cachePath height) [],
        converterCalls := 0, probes := probed.2, resolvedHref := effectiveCoverImageHref }
    else if isJpgHref effectiveCoverImageHref then
      let coverJpgTempPath := env.cachePath ++ "/.cover.jpg"
      let fs1 := fsInsert fs coverJpgTempPath (env.archiveBytes effectiveCoverImageHref)
      let fs2 := fsInsert fs1 (getThumbBmpPath env.cachePath height) []
      match env.convertThumb height (env.archiveBytes effectiveCoverImageHref) with
      | some out =>
        let fs3 := fsRemove (fsInsert fs2 (getThumbBmpPath env.cachePath height) out)
          coverJpgTempPath
        { ok := true, fs := fs3, converterCalls := 1, probes := probed.2,
          resolvedHref := effectiveCoverImageHref }
      | none =>
        let fs3 := fsRemove fs2 coverJpgTempPath
        let marker := generateInvalidFormatThumbBmp env fs3 height
        { ok := marker.1, fs := marker.2, converterCalls := 1, probes := probed.2,
          resolvedHref := effectiveCoverImageHref }
    else
      let marker := generateInvalidFormatThumbBmp env fs height
      { ok := marker.1, fs := marker.2, converterCalls := 0, probes := probed.2,
        resolvedHref := effectiveCoverImageHref }

/-- `Epub::generateThumbBmp(height)` (lines 557-656). -/
def generateThumbBmp (env : AssetEnv) (fs : Fs) (height : Nat) : GenResult :=
  let path := getThumbBmpPath env.cachePath height
  if fsExists fs path then
    if isValidThumbnailBmp fs path then
      { ok := true, fs := fs, converterCalls := 0, probes := 0, resolvedHref := "" }
    else
      generateThumbBmpCore env (fsRemove fs path) height
  else
    generateThumbBmpCore env fs height

/-! ## The metadata cache data model

`BookMetadataCache` itself lives outside the provided sources (only its
header is included by `Epub.h`); its tables and accessors are modelled from
the spec (§3 data model, §4.2 Index Reader: in-memory random-access tables
indexed by position). -/

/-- `BookMetadataCache::SpineEntry`. -/
structure SpineEntry where
  href : String
  cumulativeSize : Nat
  tocIndex : Int
deriving DecidableEq

/-- `return {};` in C++ value-initialises the entry. -/
instance : Inhabited SpineEntry := ⟨⟨"", 0, 0⟩⟩

/-- `BookMetadataCache::TocEntry`. -/
structure TocEntry where
  title : String
  href : String
  spineIndex : Int
deriving DecidableEq

instance : Inhabited TocEntry := ⟨⟨"", "", 0⟩⟩

/-- `BookMetadataCache::BookMetadata` (core metadata). -/
structure CoreMetadata where
  title : String
  author : String
  language : String
  coverItemHref : String
  textReferenceHref : String
deriving DecidableEq

/-- The in-memory state of a `BookMetadataCache`. -/
structure BookCache where
  loaded : Bool
  meta : CoreMetadata
  spine : List SpineEntry
  toc : List TocEntry
deriving DecidableEq

/-- Modelled from the spec: `BookMetadataCache::getSpineCount` — the size of
the spine table. -/
def getSpineCount (c : BookCache) : Int := c.spine.length

/-- Modelled from the spec: `BookMetadataCache::getSpineEntry` — O(1)
position lookup in the spine table. -/
def getSpineEntry (c : BookCache) (i : Nat) : SpineEntry := c.spine.getD i default

/-- Modelled from the spec: `BookMetadataCache::getTocCount` — the size of
the TOC table. -/
def getTocCount (c : BookCache) : Int := c.toc.length

/-- Modelled from the spec: `BookMetadataCache::getTocEntry` — O(1)
position lookup in the TOC table. -/
def getTocEntry (c : BookCache) (i : Nat) : TocEntry := c.toc.getD i default

/-! ## Index Reader queries (`Epub.cpp` lines 875-948) -/

/-- `Epub::getSpineItemsCount` (lines 875-880). -/
def getSpineItemsCount (c : BookCache) : Int :=
  if c.loaded = false then 0 else getSpineCount c

/-- `Epub::getSpineItem(spineIndex)` (lines 884-896). -/
def getSpineItem (c : BookCache) (spineIndex : Int) : SpineEntry :=
  if c.loaded = false then default
  else if spineIndex < 0 ∨ getSpineCount c ≤ spineIndex then getSpineEntry c 0
  else getSpineEntry c spineIndex.toNat

/-- `Epub::getCumulativeSpineItemSize(spineIndex)` (line 882). -/
def getCumulativeSpineItemSize (c : BookCache) (spineIndex : Int) : Nat :=
  (getSpineItem c spineIndex).cumulativeSize

/-- `Epub::getTocItemsCount` (lines 912-918). -/
def getTocItemsCount (c : BookCache) : Int :=
  if c.loaded = false then 0 else getTocCount c

/-- `Epub::getSpineIndexForTocIndex(tocIndex)` (lines 921-939). -/
def getSpineIndexForTocIndex (c : BookCache) (tocIndex : Int) : Int :=
  if c.loaded = false then 0
  else if tocIndex < 0 ∨ getTocCount c ≤ tocIndex then 0
  else
    let spineIndex := (getTocEntry c tocIndex.toNat).spineIndex
    if spineIndex < 0 then 0 else spineIndex

/-- `Epub::getBookSize` (lines 943-948). -/
def getBookSize (c : BookCache) : Nat :=
  if c.loaded = false ∨ getSpineCount c = 0 then 0
  else getCumulativeSpineItemSize c (getSpineItemsCount c - 1)

/-! ## Progress calculator (`Epub::calculateProgress`, lines 980-990)

`float` arithmetic is modelled exactly over `ℚ`; `size_t` subtraction is
modelled as arithmetic modulo 2^64. -/

/-- `size_t` subtraction (wraps modulo 2^64). -/
def subSizeT (a b : Nat) : Nat := ((((a : Int) - (b : Int)) % (2 ^ 64) : Int)).toNat

/-- `Epub::calculateProgress(currentSpineIndex, currentSpineRead)`. -/
def calculateProgress (c : BookCache) (currentSpineIndex : Int) (currentSpineRead : ℚ) : ℚ :=
  let bookSize := getBookSize c
  if bookSize = 0 then 0
  else
    let prevChapterSize : Nat :=
      if 1 ≤ currentSpineIndex then getCumulativeSpineItemSize c (currentSpineIndex - 1) else 0
    let curChapterSize : Nat :=
      subSizeT (getCumulativeSpineItemSize c currentSpineIndex) prevChapterSize
    let sectionProgSize : ℚ := currentSpineRead * (curChapterSize : ℚ)
    let totalProgress : ℚ := (prevChapterSize : ℚ) + sectionProgSize
    totalProgress / (bookSize : ℚ)

/-- The cumulative size stored at position `n` of the spine table
(spec-side accessor used to state properties). -/
def cumAt (c : BookCache) (n : Nat) : Nat :=
  (c.spine.getD n default).cumulativeSize

/-- The "previous chapter" cumulative size of the claim's formula: cumulative
size at `spineIndex - 1`, or `0` for the first entry. -/
def prevCumAt (c : BookCache) (i : Int) : Nat :=
  if 1 ≤ i then cumAt c (i.toNat - 1) else 0

/-- The effective cover href both asset functions resolve (lines 484-500 /
579-595): `CoreMetadata.coverItemHref` when non-empty, otherwise the first
probed candidate that exists in the archive (empty when none does). -/
def effectiveHrefOf (env : AssetEnv) : String :=
  if env.coverItemHref = "" then (probeLoop env.archiveHas getCoverCandidates).1
  else env.coverItemHref

/-! ## `Epub::load` (lines 280-402)

The build orchestration lives in `Epub.cpp`; the collaborators it drives
(`BookMetadataCache` begin/end passes, the three structural parsers, the
`book.bin` serialisation) are outside the provided sources and are modelled
from the spec as oracles in `LoadEnv`.  CSS parsing and caching never
influence the value `load` returns (failures there are logged and execution
continues), so the CSS state is not modelled. -/

/-- Data extracted by `Epub::parseContentOpf` (lines 49-98): the core
metadata, the spine (href and inflated size per entry, streamed to the
builder by the parser), and the candidate NCX/nav TOC hrefs. -/
structure OpfData where
  meta : CoreMetadata
  spine : List (String × Nat)
  tocNcxPath : String
  tocNavPath : String

/-- Oracle outcomes of the external steps `Epub::load` drives.  `Option`
models success/failure of a parse together with its extracted data. -/
structure LoadEnv where
  /-- Outcome of the initial `bookMetadataCache->load()` (cache hit). -/
  initialLoad : Option BookCache
  /-- Modelled from the spec: `BookMetadataCache::beginWrite`. -/
  beginWriteOk : Bool
  /-- Modelled from the spec: `BookMetadataCache::beginContentOpfPass`. -/
  beginOpfPassOk : Bool
  /-- Outcome of `parseContentOpf` (container located + manifest parsed). -/
  opfParse : Option OpfData
  /-- Modelled from the spec: `BookMetadataCache::endContentOpfPass`. -/
  endOpfPassOk : Bool
  /-- Modelled from the spec: `BookMetadataCache::beginTocPass`. -/
  beginTocPassOk : Bool
  /-- Outcome of `parseTocNavFile` when attempted: `none` models a parse
  failure, `some entries` the TOC entries streamed into the cache.
  Modelled from the spec: a failed parse contributes no entries (exactly one
  source is authoritative per book). -/
  navParse : Option (List TocEntry)
  /-- Outcome of `parseTocNcxFile` when attempted (as `navParse`). -/
  ncxParse : Option (List TocEntry)
  /-- Modelled from the spec: `BookMetadataCache::endTocPass`. -/
  endTocPassOk : Bool
  /-- Modelled from the spec: `BookMetadataCache::endWrite`. -/
  endWriteOk : Bool
  /-- Modelled from the spec: I/O success of `BookMetadataCache::buildBookBin`. -/
  buildBookBinOk : Bool
  /-- Modelled from the spec: the `book.bin` serialisation round-trip — what a
  fresh `BookMetadataCache::load()` yields for a just-written index; `none`
  models a decode failure on reload. -/
  reload : BookCache → Option BookCache

/-- Modelled from the spec (§4.1 step 4, `buildBookBin`): cumulative inflated
sizes are the prefix sums over the ordered spine. -/
def cumulativeSizes (sizes : List Nat) : List Nat :=
  (sizes.scanl (· + ·) 0).tail

/-- Modelled from the spec (§4.1 step 4): a TOC entry's `spineIndex` is the
position of the exact href match in the spine, `-1` when none matches. -/
def spineIndexForHref (spine : List (String × Nat)) (href : String) : Int :=
  match spine.findIdx? (fun e => decide (e.1 = href)) with
  | some i => (i : Int)
  | none => -1

/-- Modelled from the spec (§4.1 step 4, `buildBookBin`): the finalize pass
producing the compact index — prefix-summed spine sizes, TOC→spine
resolution by exact href match, and back-filled `SpineEntry.tocIndex`
(first TOC entry targeting the position wins). -/
def finalizeIndex (meta : CoreMetadata) (spine : List (String × Nat))
    (toc : List TocEntry) : BookCache :=
  let cums := cumulativeSizes (spine.map (·.2))
  let spineEntries := (spine.zip cums).map (fun e =>
    { href := e.1.1, cumulativeSize := e.2,
      tocIndex :=
        match toc.findIdx? (fun t => decide (t.href = e.1.1)) with
        | some i => (i : Int)
        | none => -1 : SpineEntry })
  let tocEntries := toc.map (fun t =>
    { t with spineIndex := spineIndexForHref spine t.href })
  { loaded := true, meta := meta, spine := spineEntries, toc := tocEntries }

/-- The TOC table the build writes, per the fallback logic of lines 344-361:
entries from the nav parse when the nav href is present and its parse
succeeded, otherwise from the NCX parse when attempted and successful,
otherwise empty. -/
def tocTableOf (env : LoadEnv) (opf : OpfData) : List TocEntry :=
  match (if opf.tocNavPath ≠ "" then env.navParse else none) with
  | some l => l
  | none =>
    match (if ¬(opf.tocNavPath ≠ "" ∧ (env.navParse).isSome) ∧ opf.tocNcxPath ≠ "" then
        env.ncxParse else none) with
    | some l => l
    | none => []

/-- The index the build hands to `buildBookBin` for serialisation. -/
def builtIndex (env : LoadEnv) (opf : OpfData) : BookCache :=
  finalizeIndex opf.meta opf.spine (tocTableOf env opf)

/-- Observable outcome of `Epub::load`: the returned boolean, the resulting
in-memory cache (`none` when no load succeeded), and whether the nav / NCX
TOC parses were attempted. -/
structure LoadResult where
  ok : Bool
  cache : Option BookCache
  navAttempted : Bool
  ncxAttempted : Bool
deriving DecidableEq

/-- `Epub::load(buildIfMissing, skipLoadingCss)` (lines 280-402), as a
function of the oracle environment.  The `skipLoadingCss` flag and the CSS
steps only affect logging and the CSS parser state, never the result, and
are omitted. -/
def load (env : LoadEnv) (buildIfMissing : Bool) : LoadResult :=
  -- Try to load existing cache first
  match env.initialLoad with
  | some c => { ok := true, cache := some c, navAttempted := false, ncxAttempted := false }
  | none =>
    -- If we didn't load from cache above and we aren't allowed to build, fail now
    if buildIfMissing = false then
      { ok := false, cache := none, navAttempted := false, ncxAttempted := false }
    else if env.beginWriteOk = false then
      { ok := false, cache := none, navAttempted := false, ncxAttempted := false }
    -- OPF pass
    else if env.beginOpfPassOk = false then
      { ok := false, cache := none, navAttempted := false, ncxAttempted := false }
    else
      match env.opfParse with
      | none => { ok := false, cache := none, navAttempted := false, ncxAttempted := false }
      | some opf =>
        if env.endOpfPassOk = false then
          { ok := false, cache := none, navAttempted := false, ncxAttempted := false }
        -- TOC pass - try EPUB 3 nav first, fall back to NCX
        else if env.beginTocPassOk = false then
          { ok := false, cache := none, navAttempted := false, ncxAttempted := false }
        else
          let navAttempted := decide (opf.tocNavPath ≠ "")
          let tocParsedNav := navAttempted && (env.navParse).isSome
          let ncxAttempted := !tocParsedNav && decide (opf.tocNcxPath ≠ "")
          -- `if (!tocParsed)` at line 358 only logs a warning - not fatal
          if env.endTocPassOk = false then
            { ok := false, cache := none, navAttempted := navAttempted,
              ncxAttempted := ncxAttempted }
          else if env.endWriteOk = false then
            { ok := false, cache := none, navAttempted := navAttempted,
              ncxAttempted := ncxAttempted }
          -- Build final book.bin
          else if env.buildBookBinOk = false then
            { ok := false, cache := none, navAttempted := navAttempted,
              ncxAttempted := ncxAttempted }
          else
            -- cleanupTmpFiles failure is ignored.
            -- Reload the cache from disk so it's in the correct state
            match env.reload (builtIndex env opf) with
            | some c2 =>
              { ok := true, cache := some c2, navAttempted := navAttempted,
                ncxAttempted := ncxAttempted }
            | none =>
              { ok := false, cache := none, navAttempted := navAttempted,
                ncxAttempted := ncxAttempted }

/-! ## Sample data used by witness theorems -/

/-- A sample environment: loaded cache whose cover href has a `.png`
extension, empty archive, failing converters. -/
def sampleEnvPng : AssetEnv where
  cachePath := "cache"
  cacheLoaded := true
  coverItemHref := "OEBPS/cover.png"
  archiveHas := fun _ => false
  archiveBytes := fun _ => []
  convertCover := fun _ _ => none
  convertThumb := fun _ _ => none

/-- A sample environment: loaded cache, no cover href, empty archive. -/
def sampleEnvNoCover : AssetEnv :=
  { sampleEnvPng with coverItemHref := "" }

/-- The spec's scenario book (§8): three spine items of inflated sizes
1000/2000/500 bytes and cumulative sizes 1000/3000/3500. -/
def sampleBook : BookCache where
  loaded := true
  meta := ⟨"", "", "", "", ""⟩
  spine := [⟨"c1.html", 1000, -1⟩, ⟨"c2.html", 3000, -1⟩, ⟨"c3.html", 3500, -1⟩]
  toc := []

/-- A loaded single-entry book of total size zero. -/
def zeroBook : BookCache where
  loaded := true
  meta := ⟨"", "", "", "", ""⟩
  spine := [⟨"only.html", 0, -1⟩]
  toc := []

/-- A parsed manifest with three spine items and no TOC source at all. -/
def sampleOpfNoToc : OpfData where
  meta := ⟨"Title", "Author", "en", "", ""⟩
  spine := [("c1.html", 1000), ("c2.html", 2000), ("c3.html", 500)]
  tocNcxPath := ""
  tocNavPath := ""

/-- A build environment: cache miss, all builder steps succeed, and the
serialisation round-trips faithfully. -/
def sampleLoadEnv : LoadEnv where
  initialLoad := none
  beginWriteOk := true
  beginOpfPassOk := true
  opfParse := some sampleOpfNoToc
  endOpfPassOk := true
  beginTocPassOk := true
  navParse := none
  ncxParse := none
  endTocPassOk := true
  endWriteOk := true
  buildBookBinOk := true
  reload := fun c => some c

/-- As `sampleLoadEnv`, but the reload of the just-written index fails. -/
def sampleLoadEnvNoReload : LoadEnv :=
  { sampleLoadEnv with reload := fun _ => none }

/-! # Theorems -/

/-! ## Filesystem helper lemmas -/

theorem fsLookup_insert_self (fs : Fs) (p : String) (d : List Nat) :
    fsLookup (fsInsert fs p d) p = some d := by
  simp [fsLookup, fsInsert, List.find?]

theorem fsExists_insert_self (fs : Fs) (p : String) (d : List Nat) :
    fsExists (fsInsert fs p d) p = true := by
  simp [fsExists, fsLookup_insert_self]

theorem fsRemove_insert (fs : Fs) (p : String) (d : List Nat) :
    fsRemove (fsInsert fs p d) p = fsRemove fs p := by
  show List.filter _ ((p, d) :: List.filter _ fs) = List.filter _ fs
  rw [List.filter_cons_of_neg (by simp), List.filter_filter]
  simp

theorem fsInsert_insert (fs : Fs) (p : String) (d d' : List Nat) :
    fsInsert (fsInsert fs p d) p d' = fsInsert fs p d' := by
  show (p, d') :: fsRemove (fsInsert fs p d) p = (p, d') :: fsRemove fs p
  rw [fsRemove_insert]

/-- A marker BMP starts with the `B`,`M` magic, so the oracle accepts it. -/
theorem isValid_of_marker (fs : Fs) (p : String) (w h t : Nat) :
    isValidThumbnailBmp (fsInsert fs p (markerBytes w h t)) p = true := by
  obtain ⟨rest, hm⟩ : ∃ rest, markerBytes w h t = 66 :: 77 :: rest := ⟨_, rfl⟩
  unfold isValidThumbnailBmp
  rw [fsLookup_insert_self, hm]
  simp

/-! ## Claim C5 -/

/-- C5: a derived-asset file is classified as valid (reusable) by
`isValidThumbnailBmp` if and only if it exists, has non-zero size, and its
first two bytes are the bitmap magic `B`,`M`; in particular a zero-byte
file is never classified as valid. -/
theorem isValidThumbnailBmp_iff_spec (fs : Fs) (p : String) :
    isValidThumbnailBmp fs p = validBmpSpec fs p ∧
      (fsLookup fs p = some [] → isValidThumbnailBmp fs p = false) := by
  constructor
  · unfold isValidThumbnailBmp validBmpSpec
    cases h : fsLookup fs p with
    | none => rfl
    | some d =>
      match d with
      | [] => simp
      | [a] => simp
      | a :: b :: t => by_cases h66 : a = 66 <;> by_cases h77 : b = 77 <;>
          simp [h66, h77]
  · intro h
    unfold isValidThumbnailBmp
    rw [h]
    simp

theorem isValidThumbnailBmp_iff_spec_witness :
    isValidThumbnailBmp [("t.bmp", ([] : List Nat))] "t.bmp" =
        validBmpSpec [("t.bmp", ([] : List Nat))] "t.bmp" ∧
      (fsLookup [("t.bmp", ([] : List Nat))] "t.bmp" = some [] →
        isValidThumbnailBmp [("t.bmp", ([] : List Nat))] "t.bmp" = false) :=
  isValidThumbnailBmp_iff_spec [("t.bmp", ([] : List Nat))] "t.bmp"

/-! ## Probe loop lemmas -/

/-- The probing loop resolves the first candidate the archive has. -/
theorem probeLoop_fst (has : String → Bool) (l : List String) :
    (probeLoop has l).1 = (l.find? has).getD "" := by
  induction l with
  | nil => rfl
  | cons c rest ih =>
    by_cases h : has c = true
    · simp [probeLoop, h, List.find?_cons_of_pos]
    · rw [Bool.not_eq_true] at h
      simp [probeLoop, h, List.find?_cons_of_neg, ih]

/-- When no candidate exists the loop probes every candidate and resolves
the empty string. -/
theorem probeLoop_none (has : String → Bool) (l : List String)
    (h : ∀ c ∈ l, has c = false) :
    probeLoop has l = ("", l.length) := by
  induction l with
  | nil => rfl
  | cons c rest ih =>
    have hc := h c (by simp)
    have hrest : ∀ c ∈ rest, has c = false := fun x hx => h x (by simp [hx])
    simp [probeLoop, hc, ih hrest]

/-- In `generateCoverBmpCore` / `generateThumbBmpCore` the locally resolved
href equals `effectiveHrefOf env`. -/
theorem probed_fst_eq_effectiveHrefOf (env : AssetEnv) :
    (if env.coverItemHref = "" then probeLoop env.archiveHas getCoverCandidates
      else (env.coverItemHref, 0)).1 = effectiveHrefOf env := by
  unfold effectiveHrefOf
  by_cases h : env.coverItemHref = "" <;> simp [h]

/-! ## Claim C9 -/

/-- The header check of `generateCoverBmp` falls through to the body when
no file exists at the cover path. -/
theorem generateCoverBmp_noFile (env : AssetEnv) (fs : Fs) (cropped : Bool)
    (hnoc : fsExists fs (getCoverBmpPath env.cachePath cropped) = false) :
    generateCoverBmp env fs cropped = generateCoverBmpCore env fs cropped := by
  unfold generateCoverBmp
  simp [hnoc]

/-- The header check of `generateThumbBmp` falls through to the body when
no file exists at the thumbnail path. -/
theorem generateThumbBmp_noFile (env : AssetEnv) (fs : Fs) (height : Nat)
    (hnot : fsExists fs (getThumbBmpPath env.cachePath height) = false) :
    generateThumbBmp env fs height = generateThumbBmpCore env fs height := by
  unfold generateThumbBmp
  simp [hnot]

/-- Every body branch of `generateCoverBmpCore` records the locally resolved
`effectiveCoverImageHref`, which is `effectiveHrefOf env`. -/
theorem generateCoverBmpCore_resolvedHref (env : AssetEnv) (fs : Fs) (cropped : Bool)
    (hl : env.cacheLoaded = true) :
    (generateCoverBmpCore env fs cropped).resolvedHref = effectiveHrefOf env := by
  unfold generateCoverBmpCore
  rw [if_neg (by simp [hl])]
  dsimp only
  rw [probed_fst_eq_effectiveHrefOf env]
  split
  · rfl
  · split
    · split <;> rfl
    · rfl

/-- Every body branch of `generateThumbBmpCore` records the locally resolved
`effectiveCoverImageHref`, which is `effectiveHrefOf env`. -/
theorem generateThumbBmpCore_resolvedHref (env : AssetEnv) (fs : Fs) (height : Nat)
    (hl : env.cacheLoaded = true) :
    (generateThumbBmpCore env fs height).resolvedHref = effectiveHrefOf env := by
  unfold generateThumbBmpCore
  rw [if_neg (by simp [hl])]
  dsimp only
  rw [probed_fst_eq_effectiveHrefOf env]
  split
  · rfl
  · split
    · split <;> rfl
    · rfl

/-- C9: when `coverItemHref` is empty, cover and thumbnail generation
resolve the effective cover href by probing the fixed ordered candidate list
(`cover.jpg`/`cover.jpeg` under the root, `images/`, `Images/`, `OEBPS/`,
`OEBPS/images/`, `OEBPS/Images/`) via an existence read; the first candidate
that exists wins. -/
theorem cover_candidates_probe_first_hit (env : AssetEnv) (fs : Fs)
    (cropped : Bool) (height : Nat)
    (hl : env.cacheLoaded = true)
    (hempty : env.coverItemHref = "")
    (hnoc : fsExists fs (getCoverBmpPath env.cachePath cropped) = false)
    (hnot : fsExists fs (getThumbBmpPath env.cachePath height) = false) :
    getCoverCandidates =
      ["cover.jpg", "images/cover.jpg", "Images/cover.jpg", "OEBPS/cover.jpg",
        "OEBPS/images/cover.jpg", "OEBPS/Images/cover.jpg",
        "cover.jpeg", "images/cover.jpeg", "Images/cover.jpeg", "OEBPS/cover.jpeg",
        "OEBPS/images/cover.jpeg", "OEBPS/Images/cover.jpeg"] ∧
      (generateCoverBmp env fs cropped).resolvedHref =
        ((getCoverCandidates.find? env.archiveHas).getD "") ∧
      (generateThumbBmp env fs height).resolvedHref =
        ((getCoverCandidates.find? env.archiveHas).getD "") := by
  refine ⟨by decide, ?_, ?_⟩
  · rw [generateCoverBmp_noFile env fs cropped hnoc,
      generateCoverBmpCore_resolvedHref env fs cropped hl]
    unfold effectiveHrefOf
    rw [if_pos hempty, probeLoop_fst]
  · rw [generateThumbBmp_noFile env fs height hnot,
      generateThumbBmpCore_resolvedHref env fs height hl]
    unfold effectiveHrefOf
    rw [if_pos hempty, probeLoop_fst]

theorem cover_candidates_probe_first_hit_witness :
    getCoverCandidates =
      ["cover.jpg", "images/cover.jpg", "Images/cover.jpg", "OEBPS/cover.jpg",
        "OEBPS/images/cover.jpg", "OEBPS/Images/cover.jpg",
        "cover.jpeg", "images/cover.jpeg", "Images/cover.jpeg", "OEBPS/cover.jpeg",
        "OEBPS/images/cover.jpeg", "OEBPS/Images/cover.jpeg"] ∧
      (generateCoverBmp
        { cachePath := "cache", cacheLoaded := true, coverItemHref := "",
          archiveHas := fun s => decide (s = "Images/cover.jpg"),
          archiveBytes := fun _ => [], convertCover := fun _ _ => none,
          convertThumb := fun _ _ => none } [] false).resolvedHref =
        ((getCoverCandidates.find? (fun s => decide (s = "Images/cover.jpg"))).getD "") ∧
      (generateThumbBmp
        { cachePath := "cache", cacheLoaded := true, coverItemHref := "",
          archiveHas := fun s => decide (s = "Images/cover.jpg"),
          archiveBytes := fun _ => [], convertCover := fun _ _ => none,
          convertThumb := fun _ _ => none } [] 400).resolvedHref =
        ((getCoverCandidates.find? (fun s => decide (s = "Images/cover.jpg"))).getD "") :=
  cover_candidates_probe_first_hit
    { cachePath := "cache", cacheLoaded := true, coverItemHref := "",
      archiveHas := fun s => decide (s = "Images/cover.jpg"),
      archiveBytes := fun _ => [], convertCover := fun _ _ => none,
      convertThumb := fun _ _ => none } [] false 400 rfl rfl (by decide) (by decide)

/-! ## More filesystem lemmas -/

theorem fsRemove_idem (fs : Fs) (p : String) :
    fsRemove (fsRemove fs p) p = fsRemove fs p := by
  unfold fsRemove
  rw [List.filter_filter]
  simp

theorem fsInsert_remove (fs : Fs) (p : String) (d : List Nat) :
    fsInsert (fsRemove fs p) p d = fsInsert fs p d := by
  show (p, d) :: fsRemove (fsRemove fs p) p = (p, d) :: fsRemove fs p
  rw [fsRemove_idem]

/-- A zero-byte file is rejected by the validity oracle. -/
theorem isValid_insert_nil (fs : Fs) (p : String) :
    isValidThumbnailBmp (fsInsert fs p []) p = false := by
  unfold isValidThumbnailBmp
  rw [fsLookup_insert_self]
  rfl

/-! ## Claim C6 -/

/-- With a resolvable non-JPG effective href, the body of `generateCoverBmp`
writes the format-unsupported marker and reports success without invoking
the converter. -/
theorem generateCoverBmpCore_marker (env : AssetEnv) (fs : Fs) (cropped : Bool)
    (hl : env.cacheLoaded = true)
    (heff : effectiveHrefOf env ≠ "")
    (hnotjpg : isJpgHref (effectiveHrefOf env) = false) :
    generateCoverBmpCore env fs cropped =
      { ok := true,
        fs := fsInsert fs (getCoverBmpPath env.cachePath cropped)
          (markerBytes (min DISPLAY_WIDTH DISPLAY_HEIGHT) (max DISPLAY_WIDTH DISPLAY_HEIGHT) 6),
        converterCalls := 0,
        probes := (if env.coverItemHref = "" then probeLoop env.archiveHas getCoverCandidates
          else (env.coverItemHref, 0)).2,
        resolvedHref := effectiveHrefOf env } := by
  unfold generateCoverBmpCore
  rw [if_neg (by simp [hl])]
  dsimp only
  rw [probed_fst_eq_effectiveHrefOf env, if_neg heff, if_neg (by simp [hnotjpg])]
  rfl

/-- C6: for a book whose effective cover href has a non-`.jpg`/`.jpeg`
extension, the first `generateCoverBmp` call writes the valid 1-bit
diagonal-cross marker bitmap exactly once and reports success without
invoking the raster converter; every subsequent call returns success
immediately, reusing the marker and neither invoking the converter nor
rewriting the file. -/
theorem generateCoverBmp_marker_once (env : AssetEnv) (fs : Fs) (cropped : Bool)
    (hnoc : fsExists fs (getCoverBmpPath env.cachePath cropped) = false)
    (hl : env.cacheLoaded = true)
    (heff : effectiveHrefOf env ≠ "")
    (hnotjpg : isJpgHref (effectiveHrefOf env) = false) :
    ((generateCoverBmp env fs cropped).ok = true ∧
      (generateCoverBmp env fs cropped).fs =
        fsInsert fs (getCoverBmpPath env.cachePath cropped)
          (markerBytes (min DISPLAY_WIDTH DISPLAY_HEIGHT) (max DISPLAY_WIDTH DISPLAY_HEIGHT) 6) ∧
      (generateCoverBmp env fs cropped).converterCalls = 0 ∧
      isValidThumbnailBmp (generateCoverBmp env fs cropped).fs
        (getCoverBmpPath env.cachePath cropped) = true) ∧
    generateCoverBmp env (generateCoverBmp env fs cropped).fs cropped =
      { ok := true, fs := (generateCoverBmp env fs cropped).fs, converterCalls := 0,
        probes := 0, resolvedHref := "" } := by
  have hcov := generateCoverBmp_noFile env fs cropped hnoc
  have hcore := generateCoverBmpCore_marker env fs cropped hl heff hnotjpg
  have hfs : (generateCoverBmp env fs cropped).fs =
      fsInsert fs (getCoverBmpPath env.cachePath cropped)
        (markerBytes (min DISPLAY_WIDTH DISPLAY_HEIGHT) (max DISPLAY_WIDTH DISPLAY_HEIGHT) 6) := by
    rw [hcov, hcore]
  refine ⟨⟨?_, hfs, ?_, ?_⟩, ?_⟩
  · rw [hcov, hcore]
  · rw [hcov, hcore]
  · rw [hfs]
    exact isValid_of_marker fs (getCoverBmpPath env.cachePath cropped) _ _ _
  · rw [hfs]
    simp [generateCoverBmp, fsExists_insert_self, isValid_of_marker]

theorem generateCoverBmp_marker_once_witness :
    ((generateCoverBmp sampleEnvPng [] false).ok = true ∧
      (generateCoverBmp sampleEnvPng [] false).fs =
        fsInsert [] (getCoverBmpPath sampleEnvPng.cachePath false)
          (markerBytes (min DISPLAY_WIDTH DISPLAY_HEIGHT) (max DISPLAY_WIDTH DISPLAY_HEIGHT) 6) ∧
      (generateCoverBmp sampleEnvPng [] false).converterCalls = 0 ∧
      isValidThumbnailBmp (generateCoverBmp sampleEnvPng [] false).fs
        (getCoverBmpPath sampleEnvPng.cachePath false) = true) ∧
    generateCoverBmp sampleEnvPng (generateCoverBmp sampleEnvPng [] false).fs false =
      { ok := true, fs := (generateCoverBmp sampleEnvPng [] false).fs, converterCalls := 0,
        probes := 0, resolvedHref := "" } :=
  generateCoverBmp_marker_once sampleEnvPng [] false (by decide) rfl (by decide) (by decide)

/-! ## Claim C7 -/

/-- With no cover href and no probed candidate, the body of
`generateCoverBmp` fails without touching the filesystem. -/
theorem generateCoverBmpCore_noHref (env : AssetEnv) (fs : Fs) (cropped : Bool)
    (hl : env.cacheLoaded = true)
    (hempty : env.coverItemHref = "")
    (hmiss : ∀ cand ∈ getCoverCandidates, env.archiveHas cand = false) :
    generateCoverBmpCore env fs cropped =
      { ok := false, fs := fs, converterCalls := 0, probes := getCoverCandidates.length,
        resolvedHref := "" } := by
  unfold generateCoverBmpCore
  rw [if_neg (by simp [hl])]
  dsimp only
  rw [if_pos hempty, probeLoop_none env.archiveHas getCoverCandidates hmiss]
  rfl

/-- With no cover href and no probed candidate, the body of
`generateThumbBmp` fails and writes the zero-byte marker. -/
theorem generateThumbBmpCore_noHref (env : AssetEnv) (fs : Fs) (height : Nat)
    (hl : env.cacheLoaded = true)
    (hempty : env.coverItemHref = "")
    (hmiss : ∀ cand ∈ getCoverCandidates, env.archiveHas cand = false) :
    generateThumbBmpCore env fs height =
      { ok := false, fs := fsInsert fs (getThumbBmpPath env.cachePath height) [],
        converterCalls := 0, probes := getCoverCandidates.length,
        resolvedHref := "" } := by
  unfold generateThumbBmpCore
  rw [if_neg (by simp [hl])]
  dsimp only
  rw [if_pos hempty, probeLoop_none env.archiveHas getCoverCandidates hmiss]
  rfl

/-- C7: when no effective cover href resolves, `generateCoverBmp` returns
false and writes no file, `generateThumbBmp` returns false and writes a
zero-byte marker file, the zero-byte file is not classified as valid, and a
subsequent thumbnail call removes it and re-attempts probing (it probes all
candidates again, returning false) rather than early-returning on the
marker. -/
theorem no_cover_marker_semantics (env : AssetEnv) (fs : Fs) (cropped : Bool) (height : Nat)
    (hl : env.cacheLoaded = true)
    (hempty : env.coverItemHref = "")
    (hmiss : ∀ cand ∈ getCoverCandidates, env.archiveHas cand = false)
    (hnoc : fsExists fs (getCoverBmpPath env.cachePath cropped) = false)
    (hnot : fsExists fs (getThumbBmpPath env.cachePath height) = false) :
    ((generateCoverBmp env fs cropped).ok = false ∧ (generateCoverBmp env fs cropped).fs = fs) ∧
    ((generateThumbBmp env fs height).ok = false ∧
      (generateThumbBmp env fs height).fs =
        fsInsert fs (getThumbBmpPath env.cachePath height) []) ∧
    isValidThumbnailBmp (generateThumbBmp env fs height).fs
      (getThumbBmpPath env.cachePath height) = false ∧
    ((generateThumbBmp env (generateThumbBmp env fs height).fs height).ok = false ∧
      (generateThumbBmp env (generateThumbBmp env fs height).fs height).probes =
        getCoverCandidates.length ∧
      (generateThumbBmp env (generateThumbBmp env fs height).fs height).fs =
        (generateThumbBmp env fs height).fs) := by
  have hcov := generateCoverBmp_noFile env fs cropped hnoc
  have hcovCore := generateCoverBmpCore_noHref env fs cropped hl hempty hmiss
  have hth := generateThumbBmp_noFile env fs height hnot
  have hthCore := generateThumbBmpCore_noHref env fs height hl hempty hmiss
  have hfs1 : (generateThumbBmp env fs height).fs =
      fsInsert fs (getThumbBmpPath env.cachePath height) [] := by
    rw [hth, hthCore]
  have hsecond : generateThumbBmp env (generateThumbBmp env fs height).fs height =
      generateThumbBmpCore env (fsRemove fs (getThumbBmpPath env.cachePath height)) height := by
    rw [hfs1]
    unfold generateThumbBmp
    simp only [fsExists_insert_self, isValid_insert_nil, Bool.false_eq_true, if_false, if_true,
      fsRemove_insert]
  have hsecondCore := generateThumbBmpCore_noHref env
    (fsRemove fs (getThumbBmpPath env.cachePath height)) height hl hempty hmiss
  refine ⟨⟨?_, ?_⟩, ⟨?_, hfs1⟩, ?_, ⟨?_, ?_, ?_⟩⟩
  · rw [hcov, hcovCore]
  · rw [hcov, hcovCore]
  · rw [hth, hthCore]
  · rw [hfs1]
    exact isValid_insert_nil fs (getThumbBmpPath env.cachePath height)
  · rw [hsecond, hsecondCore]
  · rw [hsecond, hsecondCore]
  · rw [hsecond, hsecondCore, hfs1]
    exact fsInsert_remove fs (getThumbBmpPath env.cachePath height) []

theorem no_cover_marker_semantics_witness :
    ((generateCoverBmp sampleEnvNoCover [] false).ok = false ∧
      (generateCoverBmp sampleEnvNoCover [] false).fs = []) ∧
    ((generateThumbBmp sampleEnvNoCover [] 400).ok = false ∧
      (generateThumbBmp sampleEnvNoCover [] 400).fs =
        fsInsert [] (getThumbBmpPath sampleEnvNoCover.cachePath 400) []) ∧
    isValidThumbnailBmp (generateThumbBmp sampleEnvNoCover [] 400).fs
      (getThumbBmpPath sampleEnvNoCover.cachePath 400) = false ∧
    ((generateThumbBmp sampleEnvNoCover (generateThumbBmp sampleEnvNoCover [] 400).fs 400).ok
        = false ∧
      (generateThumbBmp sampleEnvNoCover
          (generateThumbBmp sampleEnvNoCover [] 400).fs 400).probes =
        getCoverCandidates.length ∧
      (generateThumbBmp sampleEnvNoCover
          (generateThumbBmp sampleEnvNoCover [] 400).fs 400).fs =
        (generateThumbBmp sampleEnvNoCover [] 400).fs) :=
  no_cover_marker_semantics sampleEnvNoCover [] false 400 rfl rfl (by decide) (by decide)
    (by decide)

/-! ## Claim C8 -/

/-- C8: for every loaded book and every spine index outside
`[0, spineCount)`, `getSpineItem` does not fail but returns the spine entry
at index 0 (the documented safe default). -/
theorem getSpineItem_out_of_range (c : BookCache) (i : Int)
    (hl : c.loaded = true) (hout : i < 0 ∨ getSpineCount c ≤ i) :
    getSpineItem c i = c.spine.getD 0 default := by
  unfold getSpineItem getSpineEntry
  simp [hl, hout]

theorem getSpineItem_out_of_range_witness :
    getSpineItem
        { loaded := true, meta := ⟨"", "", "", "", ""⟩,
          spine := [⟨"a.html", 10, -1⟩, ⟨"b.html", 20, -1⟩], toc := [] } 5 =
      ({ loaded := true, meta := ⟨"", "", "", "", ""⟩,
          spine := [⟨"a.html", 10, -1⟩, ⟨"b.html", 20, -1⟩], toc := [] } :
        BookCache).spine.getD 0 default :=
  getSpineItem_out_of_range _ 5 rfl (by decide)

/-! ## Claim C10 -/

/-- C10: `getSpineIndexForTocIndex` always returns a non-negative spine
index; it returns 0 when the cache is not loaded, when `tocIndex` is outside
`[0, tocCount)`, and when the TOC entry's stored `spineIndex` is negative
(the `-1` sentinel for an href matching no spine entry). -/
theorem getSpineIndexForTocIndex_nonneg (c : BookCache) (i : Int) :
    0 ≤ getSpineIndexForTocIndex c i ∧
      (c.loaded = false → getSpineIndexForTocIndex c i = 0) ∧
      ((i < 0 ∨ getTocCount c ≤ i) → getSpineIndexForTocIndex c i = 0) ∧
      ((getTocEntry c i.toNat).spineIndex = -1 → getSpineIndexForTocIndex c i = 0) := by
  refine ⟨?_, ?_, ?_, ?_⟩
  · unfold getSpineIndexForTocIndex
    split
    · exact le_refl 0
    · split
      · exact le_refl 0
      · dsimp only
        split
        · exact le_refl 0
        · omega
  · intro h; unfold getSpineIndexForTocIndex; simp [h]
  · intro h; unfold getSpineIndexForTocIndex; split
    · rfl
    · simp [h]
  · intro h; unfold getSpineIndexForTocIndex; split
    · rfl
    · split
      · rfl
      · simp [h]

/-! ## Progress calculator lemmas -/

/-- In range, the reader query returns the table entry's cumulative size. -/
theorem getCumulative_eq_cumAt (c : BookCache) (i : Int) (hl : c.loaded = true)
    (h0 : 0 ≤ i) (hi : i < getSpineCount c) :
    getCumulativeSpineItemSize c i = cumAt c i.toNat := by
  unfold getCumulativeSpineItemSize getSpineItem getSpineEntry cumAt
  rw [if_neg (by simp [hl]), if_neg (by omega)]

/-- For a loaded non-empty book, the book size is the last entry's
cumulative size. -/
theorem getBookSize_eq (c : BookCache) (hl : c.loaded = true)
    (hne : c.spine.length ≠ 0) :
    getBookSize c = cumAt c (c.spine.length - 1) := by
  have hsc : getSpineCount c = (c.spine.length : Int) := rfl
  have hcount : getSpineItemsCount c = (c.spine.length : Int) := by
    unfold getSpineItemsCount
    rw [if_neg (by simp [hl])]
    exact hsc
  unfold getBookSize
  rw [if_neg (by simp only [hsc, hl, Bool.true_eq_false, false_or, Nat.cast_eq_zero]; omega)]
  rw [hcount, getCumulative_eq_cumAt c _ hl (by omega) (by rw [hsc]; omega)]
  congr 1
  omega

/-- `size_t` subtraction agrees with `Nat` subtraction when it does not
underflow and the minuend fits in 64 bits. -/
theorem subSizeT_eq (a b : Nat) (hba : b ≤ a) (ha : a < 2 ^ 64) :
    subSizeT a b = a - b := by
  unfold subSizeT
  have h1 : (a : Int) - (b : Int) = ((a - b : Nat) : Int) := by
    push_cast [hba]
    ring
  rw [h1, Int.emod_eq_of_lt (Int.natCast_nonneg _)
    (by exact_mod_cast lt_of_le_of_lt (Nat.sub_le a b) ha)]
  simp

/-- When the book size is zero, the progress is zero (the guard of
lines 982-984). -/
theorem calcProg_zero (c : BookCache) (i : Int) (f : ℚ)
    (h : getBookSize c = 0) :
    calculateProgress c i f = 0 := by
  unfold calculateProgress
  dsimp only
  rw [if_pos h]

/-- The previous-chapter size never exceeds the current entry's cumulative
size in a monotone spine table. -/
theorem prevCumAt_le (c : BookCache) (i : Int)
    (hmono : ∀ b : Nat, b < c.spine.length → ∀ a : Nat, a ≤ b → cumAt c a ≤ cumAt c b)
    (_h0 : 0 ≤ i) (hi : i < getSpineCount c) :
    prevCumAt c i ≤ cumAt c i.toNat := by
  have hsc : getSpineCount c = (c.spine.length : Int) := rfl
  unfold prevCumAt
  split
  · exact hmono i.toNat (by rw [hsc] at hi; omega) (i.toNat - 1) (by omega)
  · exact Nat.zero_le _

/-- Every cumulative size is bounded by the book size. -/
theorem cumAt_le_bookSize (c : BookCache) (hl : c.loaded = true)
    (hmono : ∀ b : Nat, b < c.spine.length → ∀ a : Nat, a ≤ b → cumAt c a ≤ cumAt c b)
    (n : Nat) (hn : n < c.spine.length) :
    cumAt c n ≤ getBookSize c := by
  rw [getBookSize_eq c hl (by omega)]
  exact hmono (c.spine.length - 1) (by omega) n (by omega)

/-- Closed form of `calculateProgress` for a loaded book with a monotone
spine table, a 64-bit book size, a valid index and a non-zero size. -/
theorem calcProg_eq (c : BookCache) (i : Int) (f : ℚ)
    (hl : c.loaded = true)
    (hmono : ∀ b : Nat, b < c.spine.length → ∀ a : Nat, a ≤ b → cumAt c a ≤ cumAt c b)
    (hB : getBookSize c < 2 ^ 64)
    (h0 : 0 ≤ i) (hi : i < getSpineCount c)
    (hBne : getBookSize c ≠ 0) :
    calculateProgress c i f =
      ((prevCumAt c i : ℚ) + f * ((cumAt c i.toNat : ℚ) - (prevCumAt c i : ℚ))) /
        (getBookSize c : ℚ) := by
  have hsc : getSpineCount c = (c.spine.length : Int) := rfl
  have hPC : prevCumAt c i ≤ cumAt c i.toNat := prevCumAt_le c i hmono h0 hi
  have hCB : cumAt c i.toNat ≤ getBookSize c :=
    cumAt_le_bookSize c hl hmono i.toNat (by rw [hsc] at hi; omega)
  unfold calculateProgress
  dsimp only
  rw [if_neg hBne]
  have hprev_eq : (if 1 ≤ i then getCumulativeSpineItemSize c (i - 1) else 0) =
      prevCumAt c i := by
    unfold prevCumAt
    split
    · rw [getCumulative_eq_cumAt c (i - 1) hl (by omega) (by omega)]
      congr 1
      omega
    · rfl
  rw [hprev_eq, getCumulative_eq_cumAt c i hl h0 hi,
    subSizeT_eq _ _ hPC (by omega), Nat.cast_sub hPC]

/-! ## Claim C3 -/

/-- C3: for a loaded book (monotone spine, 64-bit sizes) and a valid spine
index, `calculateProgress(spineIndex, fraction)` equals
`(prevSize + fraction * (cumulativeSize[spineIndex] - prevSize)) / totalSize`
where `totalSize` is the last entry's cumulative size and `prevSize` the
cumulative size at `spineIndex - 1` (0 for the first entry); and it returns
0 whenever the total size is zero, never dividing by zero. -/
theorem calculateProgress_formula (c : BookCache) (i : Int) (f : ℚ)
    (hl : c.loaded = true)
    (hmono : ∀ b : Nat, b < c.spine.length → ∀ a : Nat, a ≤ b → cumAt c a ≤ cumAt c b)
    (hB : getBookSize c < 2 ^ 64)
    (h0 : 0 ≤ i) (hi : i < getSpineCount c) :
    (getBookSize c ≠ 0 → calculateProgress c i f =
      ((prevCumAt c i : ℚ) + f * ((cumAt c i.toNat : ℚ) - (prevCumAt c i : ℚ))) /
        (cumAt c (c.spine.length - 1) : ℚ)) ∧
    (getBookSize c = 0 → calculateProgress c i f = 0) := by
  have hsc : getSpineCount c = (c.spine.length : Int) := rfl
  constructor
  · intro hBne
    rw [calcProg_eq c i f hl hmono hB h0 hi hBne,
      getBookSize_eq c hl (by rw [hsc] at hi; omega)]
  · exact calcProg_zero c i f

theorem calculateProgress_formula_witness :
    (getBookSize sampleBook ≠ 0 → calculateProgress sampleBook 1 (1 / 2) =
      ((prevCumAt sampleBook 1 : ℚ) +
          (1 / 2) * ((cumAt sampleBook (Int.toNat 1) : ℚ) - (prevCumAt sampleBook 1 : ℚ))) /
        (cumAt sampleBook (sampleBook.spine.length - 1) : ℚ)) ∧
    (getBookSize sampleBook = 0 → calculateProgress sampleBook 1 (1 / 2) = 0) :=
  calculateProgress_formula sampleBook 1 (1 / 2) rfl (by decide) (by decide) (by decide)
    (by decide)

/-! ## Claim C4 -/

/-- C4: for a loaded book (monotone spine, 64-bit sizes), `calculateProgress`
is monotone in `(spineIndex, fraction)` under the lexicographic order over
valid indices and fractions in `[0,1]`, always returns a value in `[0,1]`,
and returns 0 for a single-entry book of total size zero. -/
theorem calculateProgress_monotone_bounded (c : BookCache)
    (hl : c.loaded = true)
    (hmono : ∀ b : Nat, b < c.spine.length → ∀ a : Nat, a ≤ b → cumAt c a ≤ cumAt c b)
    (hB : getBookSize c < 2 ^ 64) :
    (∀ i j : Int, ∀ f g : ℚ, 0 ≤ i → i < getSpineCount c → 0 ≤ j → j < getSpineCount c →
      0 ≤ f → f ≤ 1 → 0 ≤ g → g ≤ 1 → (i < j ∨ (i = j ∧ f ≤ g)) →
      calculateProgress c i f ≤ calculateProgress c j g) ∧
    (∀ i : Int, ∀ f : ℚ, 0 ≤ i → i < getSpineCount c → 0 ≤ f → f ≤ 1 →
      0 ≤ calculateProgress c i f ∧ calculateProgress c i f ≤ 1) ∧
    (∀ e : SpineEntry, c.spine = [e] → e.cumulativeSize = 0 →
      ∀ i : Int, ∀ f : ℚ, calculateProgress c i f = 0) := by
  have hsc : getSpineCount c = (c.spine.length : Int) := rfl
  refine ⟨?_, ?_, ?_⟩
  · intro i j f g h0i hii h0j hij hf0 hf1 hg0 hg1 hlex
    by_cases hBz : getBookSize c = 0
    · rw [calcProg_zero c i f hBz, calcProg_zero c j g hBz]
    · have hBpos : (0 : ℚ) < (getBookSize c : ℚ) := by
        exact_mod_cast Nat.pos_of_ne_zero hBz
      rw [calcProg_eq c i f hl hmono hB h0i hii hBz,
        calcProg_eq c j g hl hmono hB h0j hij hBz,
        div_le_div_iff_of_pos_right hBpos]
      have hPCi : prevCumAt c i ≤ cumAt c i.toNat := prevCumAt_le c i hmono h0i hii
      have hPCj : prevCumAt c j ≤ cumAt c j.toNat := prevCumAt_le c j hmono h0j hij
      have hPCiq : (prevCumAt c i : ℚ) ≤ (cumAt c i.toNat : ℚ) := by exact_mod_cast hPCi
      have hPCjq : (prevCumAt c j : ℚ) ≤ (cumAt c j.toNat : ℚ) := by exact_mod_cast hPCj
      rcases hlex with hij' | ⟨rfl, hfg⟩
      · have hj1 : 1 ≤ j := by omega
        have hprevj : prevCumAt c j = cumAt c (j.toNat - 1) := by
          unfold prevCumAt
          rw [if_pos hj1]
        have hci_le : cumAt c i.toNat ≤ cumAt c (j.toNat - 1) :=
          hmono (j.toNat - 1) (by rw [hsc] at hij; omega) i.toNat (by omega)
        have h3 : (cumAt c i.toNat : ℚ) ≤ (prevCumAt c j : ℚ) := by
          rw [hprevj]
          exact_mod_cast hci_le
        have h1 : f * ((cumAt c i.toNat : ℚ) - (prevCumAt c i : ℚ)) ≤
            (cumAt c i.toNat : ℚ) - (prevCumAt c i : ℚ) :=
          mul_le_of_le_one_left (by linarith) hf1
        have h2 : 0 ≤ g * ((cumAt c j.toNat : ℚ) - (prevCumAt c j : ℚ)) :=
          mul_nonneg hg0 (by linarith)
        linarith
      · have hd : 0 ≤ (cumAt c i.toNat : ℚ) - (prevCumAt c i : ℚ) := by linarith
        have := mul_le_mul_of_nonneg_right hfg hd
        linarith
  · intro i f h0i hii hf0 hf1
    by_cases hBz : getBookSize c = 0
    · rw [calcProg_zero c i f hBz]
      norm_num
    · have hBpos : (0 : ℚ) < (getBookSize c : ℚ) := by
        exact_mod_cast Nat.pos_of_ne_zero hBz
      rw [calcProg_eq c i f hl hmono hB h0i hii hBz]
      have hPCi : prevCumAt c i ≤ cumAt c i.toNat := prevCumAt_le c i hmono h0i hii
      have hPCiq : (prevCumAt c i : ℚ) ≤ (cumAt c i.toNat : ℚ) := by exact_mod_cast hPCi
      have hCB : cumAt c i.toNat ≤ getBookSize c :=
        cumAt_le_bookSize c hl hmono i.toNat (by rw [hsc] at hii; omega)
      have hCBq : (cumAt c i.toNat : ℚ) ≤ (getBookSize c : ℚ) := by exact_mod_cast hCB
      have h1 : f * ((cumAt c i.toNat : ℚ) - (prevCumAt c i : ℚ)) ≤
          (cumAt c i.toNat : ℚ) - (prevCumAt c i : ℚ) :=
        mul_le_of_le_one_left (by linarith) hf1
      have h2 : 0 ≤ f * ((cumAt c i.toNat : ℚ) - (prevCumAt c i : ℚ)) :=
        mul_nonneg hf0 (by linarith)
      constructor
      · apply div_nonneg _ (le_of_lt hBpos)
        have : (0 : ℚ) ≤ (prevCumAt c i : ℚ) := by positivity
        linarith
      · rw [div_le_one hBpos]
        linarith
  · intro e hsp h0e i f
    apply calcProg_zero
    have hlen : c.spine.length = 1 := by rw [hsp]; rfl
    rw [getBookSize_eq c hl (by omega), hlen]
    unfold cumAt
    rw [hsp]
    simpa using h0e

theorem calculateProgress_monotone_bounded_witness :
    calculateProgress sampleBook 0 (1 / 2) ≤ calculateProgress sampleBook 1 (1 / 4) ∧
    (0 ≤ calculateProgress sampleBook 1 (1 / 2) ∧
      calculateProgress sampleBook 1 (1 / 2) ≤ 1) ∧
    calculateProgress zeroBook 0 (1 / 2) = 0 :=
  ⟨(calculateProgress_monotone_bounded sampleBook rfl (by decide) (by decide)).1
      0 1 (1 / 2) (1 / 4) (by decide) (by decide) (by decide) (by decide)
      (by norm_num) (by norm_num) (by norm_num) (by norm_num) (Or.inl (by decide)),
    (calculateProgress_monotone_bounded sampleBook rfl (by decide) (by decide)).2.1
      1 (1 / 2) (by decide) (by decide) (by norm_num) (by norm_num),
    (calculateProgress_monotone_bounded zeroBook rfl (by decide) (by decide)).2.2
      ⟨"only.html", 0, -1⟩ rfl rfl 0 (1 / 2)⟩

theorem getSpineIndexForTocIndex_nonneg_witness :
    0 ≤ getSpineIndexForTocIndex
        { loaded := true, meta := ⟨"", "", "", "", ""⟩, spine := [],
          toc := [⟨"Chapter", "missing.html", -1⟩] } 0 ∧
      (({ loaded := true, meta := ⟨"", "", "", "", ""⟩, spine := [],
          toc := [⟨"Chapter", "missing.html", -1⟩] } : BookCache).loaded = false →
        getSpineIndexForTocIndex
          { loaded := true, meta := ⟨"", "", "", "", ""⟩, spine := [],
            toc := [⟨"Chapter", "missing.html", -1⟩] } 0 = 0) ∧
      (((0 : Int) < 0 ∨ getTocCount
          { loaded := true, meta := ⟨"", "", "", "", ""⟩, spine := [],
            toc := [⟨"Chapter", "missing.html", -1⟩] } ≤ 0) →
        getSpineIndexForTocIndex
          { loaded := true, meta := ⟨"", "", "", "", ""⟩, spine := [],
            toc := [⟨"Chapter", "missing.html", -1⟩] } 0 = 0) ∧
      ((getTocEntry
          { loaded := true, meta := ⟨"", "", "", "", ""⟩, spine := [],
            toc := [⟨"Chapter", "missing.html", -1⟩] } (Int.toNat 0)).spineIndex = -1 →
        getSpineIndexForTocIndex
          { loaded := true, meta := ⟨"", "", "", "", ""⟩, spine := [],
            toc := [⟨"Chapter", "missing.html", -1⟩] } 0 = 0) :=
  getSpineIndexForTocIndex_nonneg _ 0

/-! ## `Epub::load` lemmas -/

/-- Under a cache miss with every builder step succeeding, `load` runs the
whole build and ends at the verify-by-reload step. -/
theorem load_build_reaches_reload (env : LoadEnv) (opf : OpfData)
    (hmiss : env.initialLoad = none) (hopf : env.opfParse = some opf)
    (hbw : env.beginWriteOk = true) (hbo : env.beginOpfPassOk = true)
    (heo : env.endOpfPassOk = true) (hbt : env.beginTocPassOk = true)
    (het : env.endTocPassOk = true) (hew : env.endWriteOk = true)
    (hbb : env.buildBookBinOk = true) :
    load env true =
      (match env.reload (builtIndex env opf) with
        | some c2 =>
          { ok := true, cache := some c2,
            navAttempted := decide (opf.tocNavPath ≠ ""),
            ncxAttempted := !(decide (opf.tocNavPath ≠ "") && (env.navParse).isSome) &&
              decide (opf.tocNcxPath ≠ "") }
        | none =>
          { ok := false, cache := none,
            navAttempted := decide (opf.tocNavPath ≠ ""),
            ncxAttempted := !(decide (opf.tocNavPath ≠ "") && (env.navParse).isSome) &&
              decide (opf.tocNcxPath ≠ "") }) := by
  unfold load
  rw [hmiss]
  dsimp only
  rw [if_neg (by simp), if_neg (by simp [hbw]), if_neg (by simp [hbo]), hopf]
  dsimp only
  rw [if_neg (by simp [heo]), if_neg (by simp [hbt]), if_neg (by simp [het]),
    if_neg (by simp [hew]), if_neg (by simp [hbb])]

/-- When the nav source is absent or failed and likewise the NCX source, the
built TOC table is empty. -/
theorem tocTableOf_empty (env : LoadEnv) (opf : OpfData)
    (hnav : opf.tocNavPath = "" ∨ env.navParse = none)
    (hncx : opf.tocNcxPath = "" ∨ env.ncxParse = none) :
    tocTableOf env opf = [] := by
  unfold tocTableOf
  have h1 : (if opf.tocNavPath ≠ "" then env.navParse else none) = none := by
    rcases hnav with h | h
    · rw [if_neg (by simp [h])]
    · split <;> simp [h]
  rw [h1]
  have h2 : (if ¬(opf.tocNavPath ≠ "" ∧ (env.navParse).isSome = true) ∧ opf.tocNcxPath ≠ ""
      then env.ncxParse else none) = none := by
    rcases hncx with h | h
    · rw [if_neg (by simp [h])]
    · split <;> simp [h]
  rw [h2]

/-! ## Claim C1 -/

/-- C1: during a cache build, the nav-document (EPUB3) TOC parse is
attempted exactly when the nav href is present; the NCX (EPUB2) parse is
attempted exactly when the nav source is absent or its parse failed and an
NCX href is present; and when neither source is present or both parses
fail, the build still completes successfully - `load` returns true with an
empty TOC table. -/
theorem load_toc_fallback (env : LoadEnv) (opf : OpfData)
    (hmiss : env.initialLoad = none) (hopf : env.opfParse = some opf)
    (hbw : env.beginWriteOk = true) (hbo : env.beginOpfPassOk = true)
    (heo : env.endOpfPassOk = true) (hbt : env.beginTocPassOk = true)
    (het : env.endTocPassOk = true) (hew : env.endWriteOk = true)
    (hbb : env.buildBookBinOk = true)
    (hrt : ∀ x, env.reload x = some x) :
    (load env true).navAttempted = decide (opf.tocNavPath ≠ "") ∧
    (load env true).ncxAttempted =
      (!(decide (opf.tocNavPath ≠ "") && (env.navParse).isSome) &&
        decide (opf.tocNcxPath ≠ "")) ∧
    ((opf.tocNavPath = "" ∨ env.navParse = none) →
      (opf.tocNcxPath = "" ∨ env.ncxParse = none) →
      (load env true).ok = true ∧
      ∃ c2, (load env true).cache = some c2 ∧ c2.toc = []) := by
  have hload := load_build_reaches_reload env opf hmiss hopf hbw hbo heo hbt het hew hbb
  rw [hrt (builtIndex env opf)] at hload
  refine ⟨by rw [hload], by rw [hload], ?_⟩
  intro hnav hncx
  refine ⟨by rw [hload], builtIndex env opf, by rw [hload], ?_⟩
  unfold builtIndex finalizeIndex
  rw [tocTableOf_empty env opf hnav hncx]
  rfl

theorem load_toc_fallback_witness :
    (load sampleLoadEnv true).navAttempted = decide (sampleOpfNoToc.tocNavPath ≠ "") ∧
    (load sampleLoadEnv true).ncxAttempted =
      (!(decide (sampleOpfNoToc.tocNavPath ≠ "") && (sampleLoadEnv.navParse).isSome) &&
        decide (sampleOpfNoToc.tocNcxPath ≠ "")) ∧
    ((sampleOpfNoToc.tocNavPath = "" ∨ sampleLoadEnv.navParse = none) →
      (sampleOpfNoToc.tocNcxPath = "" ∨ sampleLoadEnv.ncxParse = none) →
      (load sampleLoadEnv true).ok = true ∧
      ∃ c2, (load sampleLoadEnv true).cache = some c2 ∧ c2.toc = []) :=
  load_toc_fallback sampleLoadEnv sampleOpfNoToc rfl rfl rfl rfl rfl rfl rfl rfl rfl
    (fun _ => rfl)

/-! ## Claim C2 -/

/-- C2: after the final commit step of a build, `load` discards the
in-process builder state and performs a fresh reader load of the
just-written index: it returns true exactly when that verify-by-reload
succeeds, and the resulting in-memory cache is the reloaded one - a build
whose output cannot be reloaded is reported as a failed load. -/
theorem load_verify_by_reload (env : LoadEnv) (opf : OpfData)
    (hmiss : env.initialLoad = none) (hopf : env.opfParse = some opf)
    (hbw : env.beginWriteOk = true) (hbo : env.beginOpfPassOk = true)
    (heo : env.endOpfPassOk = true) (hbt : env.beginTocPassOk = true)
    (het : env.endTocPassOk = true) (hew : env.endWriteOk = true)
    (hbb : env.buildBookBinOk = true) :
    (load env true).ok = (env.reload (builtIndex env opf)).isSome ∧
    (load env true).cache = env.reload (builtIndex env opf) := by
  have hload := load_build_reaches_reload env opf hmiss hopf hbw hbo heo hbt het hew hbb
  cases hr : env.reload (builtIndex env opf) with
  | some c2 =>
    rw [hr] at hload
    exact ⟨by rw [hload]; rfl, by rw [hload]⟩
  | none =>
    rw [hr] at hload
    exact ⟨by rw [hload]; rfl, by rw [hload]⟩

theorem load_verify_by_reload_witness :
    (load sampleLoadEnvNoReload true).ok =
      (sampleLoadEnvNoReload.reload (builtIndex sampleLoadEnvNoReload sampleOpfNoToc)).isSome ∧
    (load sampleLoadEnvNoReload true).cache =
      sampleLoadEnvNoReload.reload (builtIndex sampleLoadEnvNoReload sampleOpfNoToc) :=
  load_verify_by_reload sampleLoadEnvNoReload sampleOpfNoToc rfl rfl rfl rfl rfl rfl rfl rfl
    rfl

end Epub
